import Mathlib

/-!
Verification development for the macOS notes and calendar helper scripts
(`notes_manager.py` and `calendar_utils.py`).

The Python sources are shallowly embedded: pure string manipulation is
translated to Lean functions on `String` / `List Char`, the external stores
(the Notes application reached through the AppleScript interpreter, and the
EventKit event store) are modelled as explicit data passed to the embedded
functions, exceptions are modelled with `Except`, and the blocking
semaphore wait of the access broker is modelled with an explicit discrete
arrival time for the host callback.
-/

namespace NotesManager

/-- Python single-character `str.replace`: every occurrence of `target` is
replaced by the list `repl`.  Both patterns used by the source (a lone
backslash and a lone double quote) are single characters, so this captures
`text.replace(pattern, replacement)` exactly. -/
def pyReplace (target : Char) (repl : List Char) : List Char → List Char
  | [] => []
  | c :: cs =>
    if c = target then repl ++ pyReplace target repl cs
    else c :: pyReplace target repl cs

/-- `escape_for_applescript` from `notes_manager.py`, working on the list of
characters: first every backslash is doubled, then every double quote gets a
preceding backslash — the two `replace` passes in source order. -/
def escape_for_applescript (s : List Char) : List Char :=
  pyReplace '"' ['\\', '"'] (pyReplace '\\' ['\\', '\\'] s)

/-- String-level wrapper of `escape_for_applescript`. -/
def escape_for_applescript_str (s : String) : String :=
  ⟨escape_for_applescript s.data⟩

/-- Single-pass description of the composition of the two replacement
passes, convenient for induction. -/
def escapeSpec : List Char → List Char
  | [] => []
  | c :: cs =>
    if c = '\\' then '\\' :: '\\' :: escapeSpec cs
    else if c = '"' then '\\' :: '"' :: escapeSpec cs
    else c :: escapeSpec cs

theorem escape_eq_escapeSpec (s : List Char) :
    escape_for_applescript s = escapeSpec s := by
  induction s with
  | nil => rfl
  | cons c cs ih =>
    by_cases h1 : c = '\\'
    · subst h1
      simp only [escape_for_applescript, pyReplace, escapeSpec, if_pos rfl] at *
      simp [ih]
    · by_cases h2 : c = '"'
      · subst h2
        simp only [escape_for_applescript, pyReplace, escapeSpec] at *
        simp [ih]
      · simp only [escape_for_applescript, pyReplace, escapeSpec,
          if_neg h1, if_neg h2] at *
        simp [ih]

/-- Recogniser for the body of an AppleScript double-quoted string literal:
reading the characters that follow the opening quote, a backslash makes the
next character literal, an unescaped double quote closes the literal, any
other character stands for itself.  Returns the decoded contents together
with the characters after the closing quote, or `none` when the literal
never closes. -/
def scanLiteral : List Char → Option (List Char × List Char)
  | [] => none
  | '"' :: cs => some ([], cs)
  | '\\' :: [] => none
  | '\\' :: d :: ds => (scanLiteral ds).map (fun p => (d :: p.1, p.2))
  | c :: cs => (scanLiteral cs).map (fun p => (c :: p.1, p.2))

theorem scanLiteral_escapeSpec (s rest : List Char) :
    scanLiteral (escapeSpec s ++ '"' :: rest) = some (s, rest) := by
  induction s with
  | nil => simp [escapeSpec, scanLiteral]
  | cons c cs ih =>
    by_cases h1 : c = '\\'
    · subst h1
      simp [escapeSpec, scanLiteral, ih]
    · by_cases h2 : c = '"'
      · subst h2
        simp [escapeSpec, scanLiteral, ih]
      · simp [escapeSpec, scanLiteral, ih, h1, h2]

/-- C4: for any string `s`, however backslashes and double quotes are mixed
in it, `escape_for_applescript` (backslash doubled first, then quote
escaped) produces text that, placed inside a double-quoted AppleScript
literal, decodes back to exactly `s`, and the literal closes exactly at the
quote that the script template itself supplies — never earlier.  In
particular for `s = a"b\c` no unescaped quote of `s` can close the literal
before the character `c` is reached. -/
theorem escape_for_applescript_roundtrip (s rest : List Char) :
    scanLiteral (escape_for_applescript s ++ '"' :: rest) = some (s, rest) := by
  rw [escape_eq_escapeSpec]
  exact scanLiteral_escapeSpec s rest

/-- Script assembled by `delete_note` in `notes_manager.py` when no account
is given (the search-all-accounts branch): the f-string interpolates
`escaped_title` into the `whose name is` literal but interpolates the raw
`title` into the `SUCCESS: Deleted note ...` confirmation literal. -/
def delete_note_script_all (title : String) : String :=
  let escaped_title := escape_for_applescript_str title
  "\n        tell application \"Notes\"\n            repeat with a in accounts\n                try\n                    set targetNote to first note of a whose name is \""
    ++ escaped_title
    ++ "\"\n                    delete targetNote\n                    return \"SUCCESS: Deleted note '"
    ++ title
    ++ "' from \" & name of a\n                end try\n            end repeat\n            return \"ERROR: Note not found\"\n        end tell\n        "

/-- The same delete script as the specification describes it: every
caller-supplied field passes through the escaping function before
interpolation, with no exceptions, including the title echoed in the
SUCCESS confirmation string. -/
def delete_note_script_all_specEscaped (title : String) : String :=
  let escaped_title := escape_for_applescript_str title
  "\n        tell application \"Notes\"\n            repeat with a in accounts\n                try\n                    set targetNote to first note of a whose name is \""
    ++ escaped_title
    ++ "\"\n                    delete targetNote\n                    return \"SUCCESS: Deleted note '"
    ++ escaped_title
    ++ "' from \" & name of a\n                end try\n            end repeat\n            return \"ERROR: Note not found\"\n        end tell\n        "

/-- Script assembled by `append_to_note` in `notes_manager.py` when no
account is given: `escaped_title` and `escaped_text` are interpolated into
the lookup and body literals, but the raw `title` is interpolated into the
`SUCCESS: Appended to note ...` confirmation literal. -/
def append_to_note_script_all (title text : String) : String :=
  let escaped_title := escape_for_applescript_str title
  let escaped_text := escape_for_applescript_str text
  "\n        tell application \"Notes\"\n            repeat with a in accounts\n                try\n                    set targetNote to first note of a whose name is \""
    ++ escaped_title
    ++ "\"\n                    set currentBody to body of targetNote\n                    set body of targetNote to currentBody & \"<br>\" & \""
    ++ escaped_text
    ++ "\"\n                    return \"SUCCESS: Appended to note '"
    ++ title
    ++ "' in \" & name of a\n                end try\n            end repeat\n            return \"ERROR: Note not found\"\n        end tell\n        "

/-- The append script as the specification describes it: the escaping
function applied to every interpolated field, the SUCCESS echo included. -/
def append_to_note_script_all_specEscaped (title text : String) : String :=
  let escaped_title := escape_for_applescript_str title
  let escaped_text := escape_for_applescript_str text
  "\n        tell application \"Notes\"\n            repeat with a in accounts\n                try\n                    set targetNote to first note of a whose name is \""
    ++ escaped_title
    ++ "\"\n                    set currentBody to body of targetNote\n                    set body of targetNote to currentBody & \"<br>\" & \""
    ++ escaped_text
    ++ "\"\n                    return \"SUCCESS: Appended to note '"
    ++ escaped_title
    ++ "' in \" & name of a\n                end try\n            end repeat\n            return \"ERROR: Note not found\"\n        end tell\n        "

set_option maxRecDepth 10000 in
/-- C1: the claim fails on the code.  For the title `a"b` the delete and
append scripts assembled by the source differ from the fully escaped
scripts the specification demands, because `delete_note` and
`append_to_note` interpolate the raw title into their SUCCESS confirmation
literals; the raw five-character run `'a"b'` (with an unescaped double
quote) appears verbatim in the assembled delete script, so the enclosing
quoted literal closes early. -/
theorem delete_append_scripts_embed_raw_title :
    delete_note_script_all "a\"b" ≠ delete_note_script_all_specEscaped "a\"b" ∧
    ('\'' :: 'a' :: '"' :: 'b' :: '\'' :: []) <:+: (delete_note_script_all "a\"b").data ∧
    append_to_note_script_all "a\"b" "hello" ≠
      append_to_note_script_all_specEscaped "a\"b" "hello" := by
  refine ⟨by decide, by decide, by decide⟩

/-- One note of the Notes store: its name, HTML body and plaintext body. -/
structure Note where
  name : String
  body : String
  plaintext : String
deriving DecidableEq, Repr

/-- One account of the Notes store, holding its notes in store order. -/
structure Account where
  name : String
  notes : List Note
deriving DecidableEq, Repr

/-- `first note of a whose name is title`: the first note of the account
whose name equals the title exactly, if any. -/
def first_note_named (notes : List Note) (title : String) : Option Note :=
  notes.find? (fun n => n.name == title)

/-- Effect of `delete targetNote` when `targetNote` was obtained as
`first note ... whose name is title`: the first note with that name is
removed, every other note is kept. -/
def delete_first_named : List Note → String → List Note
  | [], _ => []
  | n :: ns, title =>
    if n.name == title then ns else n :: delete_first_named ns title

/-- Execution of the search-all-accounts branch of `read_note` (no account
given): the script visits accounts in enumeration order, inside a `try`
takes `first note of a whose name is ...` and returns its body (or
plaintext); a failed lookup is swallowed by the `try` and the next account
is visited; when every account fails the script returns the sentinel
`ERROR: Note not found`. -/
def read_note_script_all_run : List Account → String → Bool → String
  | [], _, _ => "ERROR: Note not found"
  | a :: rest, title, pt =>
    match first_note_named a.notes title with
    | some n => if pt then n.plaintext else n.body
    | none => read_note_script_all_run rest title pt

/-- Loop semantics of the search-all-accounts branch of `delete_note`, as
executed when the interpreter accepts the assembled script: the first
account whose `first note ... whose name is` lookup succeeds has that note
deleted and the script returns the SUCCESS confirmation naming that
account; the remaining accounts are left untouched; when no account matches
the script returns `ERROR: Note not found` and the store is unchanged.
Because the SUCCESS literal interpolates the raw title (the C1 defect),
the assembled script only carries these semantics for titles the escaping
function leaves unchanged — see `title_script_safe` and the C5
counterexample for a title on which the literal closes early. -/
def delete_note_script_all_run : List Account → String → List Account × String
  | [], _ => ([], "ERROR: Note not found")
  | a :: rest, title =>
    match first_note_named a.notes title with
    | some _ =>
        ({ a with notes := delete_first_named a.notes title } :: rest,
         "SUCCESS: Deleted note '" ++ title ++ "' from " ++ a.name)
    | none =>
        let r := delete_note_script_all_run rest title
        (a :: r.1, r.2)

/-- Effect of `set body of targetNote to currentBody & "<br>" & text` on
the first note named `title`: its body receives the `<br>` separator and
the appended text (the decoded escaped text equals the caller text by the
C4 round trip); the plaintext projection maintained by the application is
not tracked here. -/
def append_first_named : List Note → String → String → List Note
  | [], _, _ => []
  | n :: ns, title, text =>
    if n.name == title then { n with body := n.body ++ "<br>" ++ text } :: ns
    else n :: append_first_named ns title text

/-- Loop semantics of the search-all-accounts branch of `append_to_note`,
as executed when the interpreter accepts the assembled script: the first
account whose lookup succeeds has the text appended to that note's body
and the script returns the SUCCESS confirmation naming that account; later
accounts are untouched; no match returns `ERROR: Note not found` with the
store unchanged.  As with delete, the raw title in the SUCCESS literal
restricts these semantics to titles unchanged by escaping. -/
def append_to_note_script_all_run :
    List Account → String → String → List Account × String
  | [], _, _ => ([], "ERROR: Note not found")
  | a :: rest, title, text =>
    match first_note_named a.notes title with
    | some _ =>
        ({ a with notes := append_first_named a.notes title text } :: rest,
         "SUCCESS: Appended to note '" ++ title ++ "' in " ++ a.name)
    | none =>
        let r := append_to_note_script_all_run rest title text
        (a :: r.1, r.2)

/-- Titles the escaping function leaves unchanged (no backslash, no double
quote).  For these the raw interpolation of the C1 defect coincides with
the escaped one, so every literal of the unscoped delete and append
scripts is exactly the intended one and the interpreter runs the cascading
loop; outside this set the SUCCESS literal closes before the title's
content and the assembled script is not the intended program. -/
def title_script_safe (title : String) : Bool :=
  escape_for_applescript_str title == title

/-- Python `str.startswith`: the second string read as a character list is
a prefix of the first. -/
def pyStartsWith (s t : String) : Bool :=
  t.data.isPrefixOf s.data

/-- Result envelope of `read_note` once the script itself ran: an output
with the `ERROR:` sentinel becomes a failure envelope, any other output is
returned as the note content. -/
inductive ReadResult where
  | failure (error : String)
  | found (title : String) (content : String)
deriving DecidableEq, Repr

/-- Post-processing of `read_note` in `notes_manager.py`: process failure
or `ERROR:`-prefixed output gives the failure envelope, otherwise the
content is returned with the queried title. -/
def read_note_result (title : String) (success : Bool) (output : String) :
    ReadResult :=
  if success = false then .failure output
  else if pyStartsWith output "ERROR:" then .failure output
  else .found title output

theorem read_note_script_all_run_not_found (accounts : List Account)
    (title : String) (pt : Bool)
    (h : ∀ a ∈ accounts, first_note_named a.notes title = none) :
    read_note_script_all_run accounts title pt = "ERROR: Note not found" := by
  induction accounts with
  | nil => rfl
  | cons a rest ih =>
    have ha := h a (List.mem_cons_self a rest)
    simp only [read_note_script_all_run, ha]
    exact ih (fun b hb => h b (List.mem_cons_of_mem _ hb))

theorem delete_note_script_all_run_not_found (accounts : List Account)
    (title : String)
    (h : ∀ a ∈ accounts, first_note_named a.notes title = none) :
    delete_note_script_all_run accounts title =
      (accounts, "ERROR: Note not found") := by
  induction accounts with
  | nil => rfl
  | cons a rest ih =>
    have ha := h a (List.mem_cons_self a rest)
    simp only [delete_note_script_all_run, ha]
    simp [ih (fun b hb => h b (List.mem_cons_of_mem _ hb))]

theorem read_note_script_all_run_found (pre post : List Account)
    (a : Account) (title : String) (n : Note)
    (hpre : ∀ b ∈ pre, first_note_named b.notes title = none)
    (ha : first_note_named a.notes title = some n) :
    read_note_script_all_run (pre ++ a :: post) title false = n.body := by
  induction pre with
  | nil => simp [read_note_script_all_run, ha]
  | cons b rest ih =>
    have hb := hpre b (List.mem_cons_self b rest)
    simp only [List.cons_append, read_note_script_all_run, hb]
    exact ih (fun c hc => hpre c (List.mem_cons_of_mem _ hc))

theorem delete_note_script_all_run_found (pre post : List Account)
    (a : Account) (title : String) (n : Note)
    (hpre : ∀ b ∈ pre, first_note_named b.notes title = none)
    (ha : first_note_named a.notes title = some n) :
    delete_note_script_all_run (pre ++ a :: post) title =
      (pre ++ { a with notes := delete_first_named a.notes title } :: post,
       "SUCCESS: Deleted note '" ++ title ++ "' from " ++ a.name) := by
  induction pre with
  | nil => simp [delete_note_script_all_run, ha]
  | cons b rest ih =>
    have hb := hpre b (List.mem_cons_self b rest)
    simp only [List.cons_append, delete_note_script_all_run, hb]
    simp [ih (fun c hc => hpre c (List.mem_cons_of_mem _ hc))]

theorem append_to_note_script_all_run_not_found (accounts : List Account)
    (title text : String)
    (h : ∀ a ∈ accounts, first_note_named a.notes title = none) :
    append_to_note_script_all_run accounts title text =
      (accounts, "ERROR: Note not found") := by
  induction accounts with
  | nil => rfl
  | cons a rest ih =>
    have ha := h a (List.mem_cons_self a rest)
    simp only [append_to_note_script_all_run, ha]
    simp [ih (fun b hb => h b (List.mem_cons_of_mem _ hb))]

theorem append_to_note_script_all_run_found (pre post : List Account)
    (a : Account) (title text : String) (n : Note)
    (hpre : ∀ b ∈ pre, first_note_named b.notes title = none)
    (ha : first_note_named a.notes title = some n) :
    append_to_note_script_all_run (pre ++ a :: post) title text =
      (pre ++ { a with notes := append_first_named a.notes title text } :: post,
       "SUCCESS: Appended to note '" ++ title ++ "' in " ++ a.name) := by
  induction pre with
  | nil => simp [append_to_note_script_all_run, ha]
  | cons b rest ih =>
    have hb := hpre b (List.mem_cons_self b rest)
    simp only [List.cons_append, append_to_note_script_all_run, hb]
    simp [ih (fun c hc => hpre c (List.mem_cons_of_mem _ hc))]

set_option maxRecDepth 10000 in
/-- C5 counterexample: the claim as stated covers unscoped delete and
append for every title, but for the title `a"b` the unscoped delete script
assembled by the source is not the intended cascading-loop program: the
tail below is a verbatim suffix of the assembled script, and scanning the
body of its SUCCESS literal closes the literal at the title's own
unescaped quote — the decoded literal stops after `...note 'a` and the
stray text `b' from ...` is left outside any literal, so the interpreter
cannot run the loop the claim describes for this title. -/
theorem delete_script_success_literal_closes_early :
    ("SUCCESS: Deleted note 'a\"b' from \" & name of a\n                end try\n            end repeat\n            return \"ERROR: Note not found\"\n        end tell\n        ").data
      <:+ (delete_note_script_all "a\"b").data ∧
    scanLiteral ("SUCCESS: Deleted note 'a\"b' from \" & name of a\n                end try\n            end repeat\n            return \"ERROR: Note not found\"\n        end tell\n        ").data =
      some (("SUCCESS: Deleted note 'a").data,
        ("b' from \" & name of a\n                end try\n            end repeat\n            return \"ERROR: Note not found\"\n        end tell\n        ").data) := by
  refine ⟨by decide, by decide⟩

/-- C5 amended: unscoped read lookups cascade accounts in
store-enumeration order for every title — the first account holding a note
of that name supplies the body, later accounts are never consulted, and a
global miss surfaces the not-found failure envelope; unscoped delete and
append lookups behave the same way for every title the escaping function
leaves unchanged (`title_script_safe`): they act on the first matching
account only, leave every other account untouched, never aggregate, and on
a global miss return the not-found sentinel with the store unchanged. -/
theorem unscoped_lookup_first_account_wins :
    (∀ (accounts : List Account) (title : String),
        (∀ a ∈ accounts, first_note_named a.notes title = none) →
        read_note_script_all_run accounts title false = "ERROR: Note not found" ∧
        read_note_result title true (read_note_script_all_run accounts title false) =
          ReadResult.failure "ERROR: Note not found") ∧
    (∀ (pre post : List Account) (a : Account) (title : String) (n : Note),
        (∀ b ∈ pre, first_note_named b.notes title = none) →
        first_note_named a.notes title = some n →
        read_note_script_all_run (pre ++ a :: post) title false = n.body) ∧
    (∀ (accounts : List Account) (title text : String),
        title_script_safe title = true →
        (∀ a ∈ accounts, first_note_named a.notes title = none) →
        delete_note_script_all_run accounts title =
          (accounts, "ERROR: Note not found") ∧
        append_to_note_script_all_run accounts title text =
          (accounts, "ERROR: Note not found")) ∧
    (∀ (pre post : List Account) (a : Account) (title text : String) (n : Note),
        title_script_safe title = true →
        (∀ b ∈ pre, first_note_named b.notes title = none) →
        first_note_named a.notes title = some n →
        delete_note_script_all_run (pre ++ a :: post) title =
          (pre ++ { a with notes := delete_first_named a.notes title } :: post,
           "SUCCESS: Deleted note '" ++ title ++ "' from " ++ a.name) ∧
        append_to_note_script_all_run (pre ++ a :: post) title text =
          (pre ++ { a with notes := append_first_named a.notes title text } :: post,
           "SUCCESS: Appended to note '" ++ title ++ "' in " ++ a.name)) := by
  refine ⟨fun accounts title h => ?_, fun pre post a title n hpre ha =>
      read_note_script_all_run_found pre post a title n hpre ha,
    fun accounts title text _ h =>
      ⟨delete_note_script_all_run_not_found accounts title h,
       append_to_note_script_all_run_not_found accounts title text h⟩,
    fun pre post a title text n _ hpre ha =>
      ⟨delete_note_script_all_run_found pre post a title n hpre ha,
       append_to_note_script_all_run_found pre post a title text n hpre ha⟩⟩
  have hr := read_note_script_all_run_not_found accounts title false h
  refine ⟨hr, ?_⟩
  rw [hr]
  rfl

/-- Witness for C5 at a concrete three-account store and the safe title
`t`: the second account (first in order with a match) wins for read,
delete and append, the third account is untouched, and an absent title
produces the not-found failure envelope. -/
theorem unscoped_lookup_first_account_wins_witness :
    read_note_script_all_run
      [⟨"A", [⟨"other", "ob", "op"⟩]⟩,
       ⟨"B", [⟨"t", "bodyB", "plainB"⟩]⟩,
       ⟨"C", [⟨"t", "bodyC", "plainC"⟩]⟩] "t" false = "bodyB" ∧
    delete_note_script_all_run
      [⟨"A", [⟨"other", "ob", "op"⟩]⟩,
       ⟨"B", [⟨"t", "bodyB", "plainB"⟩]⟩,
       ⟨"C", [⟨"t", "bodyC", "plainC"⟩]⟩] "t" =
      ([⟨"A", [⟨"other", "ob", "op"⟩]⟩,
        ⟨"B", []⟩,
        ⟨"C", [⟨"t", "bodyC", "plainC"⟩]⟩],
       "SUCCESS: Deleted note 't' from B") ∧
    append_to_note_script_all_run
      [⟨"A", [⟨"other", "ob", "op"⟩]⟩,
       ⟨"B", [⟨"t", "bodyB", "plainB"⟩]⟩,
       ⟨"C", [⟨"t", "bodyC", "plainC"⟩]⟩] "t" "x" =
      ([⟨"A", [⟨"other", "ob", "op"⟩]⟩,
        ⟨"B", [⟨"t", "bodyB<br>x", "plainB"⟩]⟩,
        ⟨"C", [⟨"t", "bodyC", "plainC"⟩]⟩],
       "SUCCESS: Appended to note 't' in B") ∧
    read_note_result "zzz" true
      (read_note_script_all_run [⟨"A", [⟨"other", "ob", "op"⟩]⟩] "zzz" false) =
      ReadResult.failure "ERROR: Note not found" := by
  have hread := unscoped_lookup_first_account_wins.2.1
    [⟨"A", [⟨"other", "ob", "op"⟩]⟩]
    [⟨"C", [⟨"t", "bodyC", "plainC"⟩]⟩]
    ⟨"B", [⟨"t", "bodyB", "plainB"⟩]⟩ "t" ⟨"t", "bodyB", "plainB"⟩
    (by decide) (by decide)
  have hact := unscoped_lookup_first_account_wins.2.2.2
    [⟨"A", [⟨"other", "ob", "op"⟩]⟩]
    [⟨"C", [⟨"t", "bodyC", "plainC"⟩]⟩]
    ⟨"B", [⟨"t", "bodyB", "plainB"⟩]⟩ "t" "x" ⟨"t", "bodyB", "plainB"⟩
    (by decide) (by decide) (by decide)
  have hnone := unscoped_lookup_first_account_wins.1
    [⟨"A", [⟨"other", "ob", "op"⟩]⟩] "zzz" (by decide)
  exact ⟨hread, hact.1.trans (by decide), hact.2.trans (by decide), hnone.2⟩

/-- Outcome of decoding a textual store response into a record set. -/
inductive NotesResult where
  | failure (error : String)
  | records (lines : List String)
deriving DecidableEq, Repr

/-- Python `str.split` with the line-feed separator: the list of segments
between occurrences of the separator, empty segments kept. -/
def pySplitNl : List Char → List (List Char)
  | [] => [[]]
  | c :: cs =>
    match pySplitNl cs with
    | [] => [[]]
    | l :: ls => if c = '\n' then [] :: l :: ls else (c :: l) :: ls

/-- Whitespace as stripped by Python `str.strip` (the ASCII cases). -/
def isPyWhitespace (c : Char) : Bool :=
  c = ' ' || c = '\t' || c = '\n' || c = '\r' || c = '\x0b' || c = '\x0c'

/-- Python `str.strip()`: leading and trailing whitespace removed. -/
def pyStrip (s : List Char) : List Char :=
  ((s.dropWhile isPyWhitespace).reverse.dropWhile isPyWhitespace).reverse

/-- Shared line decoding of the textual store responses, the comprehension
`line.strip() for line in output.split, kept when non-empty`: split the raw
text on line-feed, trim surrounding whitespace from each line, discard
empty lines, keep each remaining line as one record. -/
def parse_lines (output : String) : List String :=
  ((((pySplitNl output.data).map pyStrip).filter (fun l => l ≠ [])).map
    (fun l => (⟨l⟩ : String)))

/-- Decoding performed by `list_notes` after `run_applescript`: a process
failure or an `ERROR:`-prefixed output becomes a failure, everything else
is decoded as one record per non-empty trimmed line. -/
def list_notes_decode (success : Bool) (output : String) : NotesResult :=
  if success = false then .failure output
  else if pyStartsWith output "ERROR:" then .failure output
  else .records (parse_lines output)

/-- Decoding performed by `search_notes` after `run_applescript`: a process
failure becomes a failure; every successful output, whatever it starts
with, is decoded as a record set — the source has no `ERROR:` sentinel
check in this function. -/
def search_notes_decode (success : Bool) (output : String) : NotesResult :=
  if success = false then .failure output
  else .records (parse_lines output)

/-- C6 counterexample: the claim states that the `ERROR:` sentinel is
checked before generic success parsing for every list-producing operation,
search included; but `search_notes` decodes the response `ERROR: boom` as a
one-record result set instead of a failure, while `list_notes` decodes the
same response as a failure. -/
theorem search_decode_skips_error_sentinel :
    search_notes_decode true "ERROR: boom" = NotesResult.records ["ERROR: boom"] ∧
    search_notes_decode true "ERROR: boom" ≠ NotesResult.failure "ERROR: boom" ∧
    list_notes_decode true "ERROR: boom" = NotesResult.failure "ERROR: boom" := by
  refine ⟨by decide, by decide, by decide⟩

/-- C6 amended: `list_notes` checks the `ERROR:` sentinel before generic
success parsing and otherwise splits the response on line-feed, trims each
line and drops empty lines; `search_notes` performs no sentinel check and
decodes every successful response as a record set with the same splitting. -/
theorem error_sentinel_checked_for_list_not_search (output : String) :
    (pyStartsWith output "ERROR:" = true →
        list_notes_decode true output = NotesResult.failure output) ∧
    (pyStartsWith output "ERROR:" = false →
        list_notes_decode true output = NotesResult.records (parse_lines output)) ∧
    search_notes_decode true output = NotesResult.records (parse_lines output) := by
  refine ⟨fun h => ?_, fun h => ?_, rfl⟩
  · simp [list_notes_decode, h]
  · simp [list_notes_decode, h]

/-- Witness for C6 amended at concrete responses, also evaluating the
splitting: trimmed, empty lines dropped, one record per remaining line. -/
theorem error_sentinel_checked_witness :
    list_notes_decode true "ERROR: x" = NotesResult.failure "ERROR: x" ∧
    list_notes_decode true "a\n b \n\nc" = NotesResult.records ["a", "b", "c"] ∧
    search_notes_decode true " x " = NotesResult.records ["x"] := by
  refine ⟨(error_sentinel_checked_for_list_not_search "ERROR: x").1 (by decide),
    ((error_sentinel_checked_for_list_not_search "a\n b \n\nc").2.1 (by decide)).trans
      (by decide),
    (error_sentinel_checked_for_list_not_search " x ").2.2.trans (by decide)⟩

/-- The result dict a notes command hands to `main()`, as printed by the
single `print(json.dumps(result))` call — each run of the notes CLI emits
exactly one JSON document.  For `list_notes` the failure document is
`success: False` with the error message, the success document is
`success: True` with the record lines and their count. -/
inductive NotesJSONDoc where
  | failure (error : String)
  | listing (notes : List String) (count : Nat)
deriving DecidableEq, Repr

/-- The document printed for the `list-notes` command: the decode outcome
of `list_notes` wrapped as the dict the source returns. -/
def list_notes_command (success : Bool) (output : String) : NotesJSONDoc :=
  match list_notes_decode success output with
  | .failure e => .failure e
  | .records ls => .listing ls ls.length

/-- Exit-code decision at the end of the notes `main()`:
`sys.exit(1)` when the result dict has `success` false, exit code zero
otherwise. -/
def notes_main_exit_code : NotesJSONDoc → Nat
  | .failure _ => 1
  | .listing _ _ => 0

/-- Python `str.strip()` on a `String`. -/
def pyStripStr (s : String) : String :=
  ⟨pyStrip s.data⟩

/-- Outcome of the `subprocess.run(["osascript", "-e", script], timeout=30)`
call inside `run_applescript`: the interpreter completed with an exit code
and captured output, or the 30-time-unit bound expired
(`subprocess.TimeoutExpired`), or some other exception was raised with the
given message. -/
inductive SubprocessOutcome where
  | completed (returncode : Int) (stdout : String) (stderr : String)
  | timedOut
  | raised (message : String)
deriving DecidableEq, Repr

/-- `run_applescript` from `notes_manager.py`: every subprocess outcome is
mapped to a `(success, text)` pair — exit code zero gives the stripped
stdout with success, a non-zero exit gives the stripped stderr as failure,
a timeout gives a fixed failure message, any other exception gives its
message as failure.  The function is total, so no exception reaches a
command handler. -/
def run_applescript (outcome : SubprocessOutcome) : Bool × String :=
  match outcome with
  | .completed returncode out err =>
      if returncode = 0 then (true, pyStripStr out) else (false, pyStripStr err)
  | .timedOut => (false, "AppleScript execution timed out")
  | .raised message => (false, message)

/-- C10: the automation-script runner is total at its interface — a zero
interpreter exit returns success with the trimmed stdout, a non-zero exit
returns failure with the trimmed stderr, exceeding the 30-time-unit bound
returns the fixed timeout message, and any other exception returns its
message; in every case a `(success, text)` pair is produced and nothing
propagates. -/
theorem run_applescript_total :
    (∀ out err, run_applescript (.completed 0 out err) = (true, pyStripStr out)) ∧
    (∀ (returncode : Int) (out err : String), returncode ≠ 0 →
        run_applescript (.completed returncode out err) = (false, pyStripStr err)) ∧
    run_applescript .timedOut = (false, "AppleScript execution timed out") ∧
    (∀ message, run_applescript (.raised message) = (false, message)) := by
  refine ⟨fun out err => rfl, fun returncode out err h => ?_, rfl, fun message => rfl⟩
  simp [run_applescript, h]

/-- Witness for C10 at concrete outcomes of each kind, with the trimming
evaluated. -/
theorem run_applescript_total_witness :
    run_applescript (.completed 1 "o" " e ") = (false, "e") ∧
    run_applescript (.completed 0 " o " "e") = (true, "o") ∧
    run_applescript .timedOut = (false, "AppleScript execution timed out") := by
  refine ⟨(run_applescript_total.2.1 1 "o" " e " (by decide)).trans (by decide),
    (run_applescript_total.1 " o " "e").trans (by decide),
    run_applescript_total.2.2.1⟩

end NotesManager

namespace CalendarUtils

/-- Host authorization status for one EventKit entity type. -/
inductive EKAuthorizationStatus where
  | notDetermined
  | restricted
  | denied
  | authorized
deriving DecidableEq, Repr

/-- Behaviour of the host completion callback for one grant request: the
discrete time at which it fires, if it ever does, and the success flag it
would deliver. -/
structure GrantCallback where
  arrival : Option Nat
  callbackGranted : Bool
deriving DecidableEq, Repr

/-- What an access request did: the boolean handed back to the caller,
whether an asynchronous host grant request was issued, and the discrete
time at which the blocking call returned. -/
structure AccessOutcome where
  granted : Bool
  hostRequested : Bool
  returnTime : Nat
deriving DecidableEq, Repr

/-- `CalendarManager.request_event_access` from `calendar_utils.py`: an
`authorized` status returns `True` at once with no host round-trip; a
`notDetermined` status issues the asynchronous grant request and blocks on
`threading.Event().wait(timeout=30)` — if the completion callback fires
within the 30-time-unit bound the call returns its flag at that moment,
otherwise the wait elapses in full and the initial `False` of the
single-slot `granted` cell is returned at time 30; any other status
(`denied`, `restricted`) returns `False` at once without a new grant
request. -/
def request_event_access (status : EKAuthorizationStatus)
    (cb : GrantCallback) : AccessOutcome :=
  match status with
  | .authorized => ⟨true, false, 0⟩
  | .notDetermined =>
      match cb.arrival with
      | some t => if t ≤ 30 then ⟨cb.callbackGranted, true, t⟩ else ⟨false, true, 30⟩
      | none => ⟨false, true, 30⟩
  | _ => ⟨false, false, 0⟩

/-- `CalendarManager.request_reminder_access`: the same wait pattern,
repeated in the source for the reminder entity type. -/
def request_reminder_access (status : EKAuthorizationStatus)
    (cb : GrantCallback) : AccessOutcome :=
  match status with
  | .authorized => ⟨true, false, 0⟩
  | .notDetermined =>
      match cb.arrival with
      | some t => if t ≤ 30 then ⟨cb.callbackGranted, true, t⟩ else ⟨false, true, 30⟩
      | none => ⟨false, true, 30⟩
  | _ => ⟨false, false, 0⟩

/-- C3: from the undetermined state, when the host completion callback
never fires, both access requests return `Denied` (`False`) precisely when
the 30-time-unit wait elapses — the return time equals the full timeout,
so the call neither returns early nor leaves the calling thread suspended
forever (the embedded wait is total). -/
theorem access_request_times_out_denied (cb : GrantCallback)
    (h : cb.arrival = none) :
    request_event_access .notDetermined cb = ⟨false, true, 30⟩ ∧
    request_reminder_access .notDetermined cb = ⟨false, true, 30⟩ := by
  simp [request_event_access, request_reminder_access, h]

/-- Witness for C3: a callback that would have granted access but never
fires still yields `Denied` at exactly time 30. -/
theorem access_request_times_out_denied_witness :
    request_event_access .notDetermined ⟨none, true⟩ = ⟨false, true, 30⟩ ∧
    request_reminder_access .notDetermined ⟨none, true⟩ = ⟨false, true, 30⟩ :=
  access_request_times_out_denied ⟨none, true⟩ rfl

/-- C8: the host grant request is issued only from the undetermined state —
an already authorized status returns `Granted` immediately (time 0) with no
host round-trip, an already denied (or restricted) status returns `Denied`
immediately without a new grant request, and only the undetermined status
issues one, whatever the callback behaviour. -/
theorem access_request_only_prompts_when_undetermined (cb : GrantCallback) :
    request_event_access .authorized cb = ⟨true, false, 0⟩ ∧
    request_event_access .denied cb = ⟨false, false, 0⟩ ∧
    request_event_access .restricted cb = ⟨false, false, 0⟩ ∧
    (request_event_access .notDetermined cb).hostRequested = true := by
  refine ⟨rfl, rfl, rfl, ?_⟩
  cases h : cb.arrival with
  | none => simp [request_event_access, h]
  | some t => by_cases ht : t ≤ 30 <;> simp [request_event_access, h, ht]

/-- The event store as `delete_event` sees it: the identifiers it holds and
whether the native removal call succeeds for a given identifier. -/
structure EventStore where
  events : List String
  removeOk : String → Bool

/-- `EKEventStore.eventWithIdentifier`: the stored event with the given
identifier, when present. -/
def eventWithIdentifier (store : EventStore) (event_id : String) :
    Option String :=
  if store.events.contains event_id then some event_id else none

/-- `CalendarManager.delete_event`: an unknown identifier raises
`ValueError("Event '<id>' not found")` (modelled as `Except.error`), a
failed native removal raises a runtime error, and otherwise `True` is
returned; the `future_events` flag only selects the span and does not
change this outcome. -/
def delete_event (store : EventStore) (event_id : String)
    (_future_events : Bool) : Except String Bool :=
  match eventWithIdentifier store event_id with
  | none => .error ("Event '" ++ event_id ++ "' not found")
  | some _ =>
      if store.removeOk event_id then .ok true
      else .error "Failed to delete event"

/-- The `delete-event` handler of the calendar CLI `__main__` block: it
calls `mgr.delete_event` with no surrounding try/except and prints a plain
`Deleted event: <id>` line on success, so an exception raised by
`delete_event` propagates out of the handler (an `Except.error` result
here means an uncaught Python exception escaping the command boundary,
with no JSON document on standard output). -/
def delete_event_handler (store : EventStore) (event_id : String)
    (future_events : Bool) : Except String String :=
  (delete_event store event_id future_events).map
    (fun _ => "Deleted event: " ++ event_id)

/-- C2 counterexample: with a store that holds no events, the `delete-event`
command with id `ABC-123` does not produce a `success: false` JSON document
— the uncaught `ValueError` escapes the handler, so the command boundary is
crossed by an exception instead of a JSON error envelope. -/
theorem delete_event_unknown_id_escapes :
    delete_event_handler ⟨[], fun _ => true⟩ "ABC-123" false =
      Except.error "Event 'ABC-123' not found" := by
  rfl

/-- C2 amended: on the calendar surface, `delete-event` invoked with an
identifier the store does not contain lets the `ValueError` with message
`Event '<id>' not found` propagate uncaught past the command boundary (the
interpreter exits non-zero with a traceback), and prints no JSON document
— the JSON failure envelope of the output contract is not produced by this
handler; on the notes surface the failure contract holds for `list-notes`:
a process-level failure, or a successful run returning the `ERROR:`
sentinel, yields the `success: false` document with the error message as
the command's single printed result, and the dispatcher exit code is 1. -/
theorem delete_event_unknown_id_raises (store : EventStore)
    (event_id : String) (future_events : Bool) (output : String)
    (h : eventWithIdentifier store event_id = none) :
    delete_event_handler store event_id future_events =
      Except.error ("Event '" ++ event_id ++ "' not found") ∧
    NotesManager.list_notes_command false output =
      NotesManager.NotesJSONDoc.failure output ∧
    NotesManager.notes_main_exit_code
      (NotesManager.list_notes_command false output) = 1 ∧
    (NotesManager.pyStartsWith output "ERROR:" = true →
      NotesManager.list_notes_command true output =
        NotesManager.NotesJSONDoc.failure output ∧
      NotesManager.notes_main_exit_code
        (NotesManager.list_notes_command true output) = 1) := by
  refine ⟨?_, rfl, rfl, fun hs => ?_⟩
  · simp [delete_event_handler, delete_event, h, Except.map]
  · constructor <;>
      simp [NotesManager.list_notes_command, NotesManager.list_notes_decode,
        NotesManager.notes_main_exit_code, hs]

/-- Witness for C2 amended: a one-event store queried with a different id
escapes with the exception, while list-notes failures (a process failure
and an ERROR-sentinel response) give the failure document and exit 1. -/
theorem delete_event_unknown_id_raises_witness :
    delete_event_handler ⟨["E1"], fun _ => true⟩ "nope" false =
      Except.error "Event 'nope' not found" ∧
    NotesManager.list_notes_command false "oops" =
      NotesManager.NotesJSONDoc.failure "oops" ∧
    NotesManager.list_notes_command true "ERROR: boom" =
      NotesManager.NotesJSONDoc.failure "ERROR: boom" ∧
    NotesManager.notes_main_exit_code
      (NotesManager.list_notes_command true "ERROR: boom") = 1 := by
  have h1 := delete_event_unknown_id_raises ⟨["E1"], fun _ => true⟩ "nope" false
    "oops" rfl
  have h2 := delete_event_unknown_id_raises ⟨["E1"], fun _ => true⟩ "nope" false
    "ERROR: boom" rfl
  exact ⟨h1.1.trans (by rfl), h1.2.1, (h2.2.2.2 (by decide)).1,
    (h2.2.2.2 (by decide)).2⟩

/-- One calendar (or reminder list) of the store, identified by its title. -/
structure EKCalendar where
  title : String
deriving DecidableEq, Repr

/-- `CalendarManager.get_calendar_by_name`: walk the store's calendars in
order and return the first whose title equals the requested name exactly
(`cal.title() == name`); `None` when no title matches. -/
def get_calendar_by_name (calendars : List EKCalendar) (name : String) :
    Option EKCalendar :=
  calendars.find? (fun cal => cal.title == name)

/-- Calendar-resolution step of `CalendarManager.create_event`: no name
falls back to the default calendar, a known name resolves, and an unknown
name raises `ValueError("Calendar '<name>' not found")`. -/
def create_event_resolve_calendar (calendars : List EKCalendar)
    (defaultCalendar : EKCalendar) (calendar_name : Option String) :
    Except String EKCalendar :=
  match calendar_name with
  | none => .ok defaultCalendar
  | some name =>
      match get_calendar_by_name calendars name with
      | none => .error ("Calendar '" ++ name ++ "' not found")
      | some cal => .ok cal

/-- Calendar-resolution step of `CalendarManager.get_events`: each name is
looked up with `get_calendar_by_name`, unresolved names are silently
dropped by the comprehension `[c for c in calendars if c]`, and the —
possibly empty — list is handed to the native predicate; no error is ever
raised here. -/
def get_events_resolve_calendars (calendars : List EKCalendar)
    (calendar_names : Option (List String)) :
    Except String (Option (List EKCalendar)) :=
  .ok (match calendar_names with
       | none => none
       | some names =>
           some ((names.map (get_calendar_by_name calendars)).filterMap id))

/-- C7 counterexample: a store with only the calendar `Work`, queried by
`get_events` for the calendar `Personal`, yields no scope-not-found
failure: the resolution succeeds with the empty calendar list and the query
proceeds. -/
theorem get_events_unknown_calendar_no_failure :
    get_events_resolve_calendars [⟨"Work"⟩] (some ["Personal"]) =
      Except.ok (some []) := by
  rfl

/-- C7 amended: container resolution is exact, case-sensitive string
equality with no fuzzy matching — a resolved calendar's title equals the
requested name — and `create_event` surfaces `Calendar '<name>' not found`
when nothing matches; `get_events`, however, never surfaces a failure for
an unmatched name: it silently drops it and proceeds with the (possibly
empty) resolved list. -/
theorem calendar_resolution_exact_create_errors_query_proceeds
    (calendars : List EKCalendar) (defaultCalendar : EKCalendar)
    (name : String) :
    (∀ cal, get_calendar_by_name calendars name = some cal →
        cal.title = name) ∧
    (get_calendar_by_name calendars name = none →
        create_event_resolve_calendar calendars defaultCalendar (some name) =
          Except.error ("Calendar '" ++ name ++ "' not found")) ∧
    (∀ calendar_names, ∃ resolved,
        get_events_resolve_calendars calendars calendar_names =
          Except.ok resolved) := by
  refine ⟨fun cal hc => ?_, fun h => ?_, fun calendar_names => ⟨_, rfl⟩⟩
  · simp only [get_calendar_by_name] at hc
    have hp := List.find?_some hc
    exact eq_of_beq hp
  · simp [create_event_resolve_calendar, h]

/-- Witness for C7 amended: lower-case `work` does not resolve against the
calendar `Work`, so `create_event` errors; a resolved name has exactly the
requested title. -/
theorem calendar_resolution_witness :
    create_event_resolve_calendar [⟨"Work"⟩] ⟨"Default"⟩ (some "work") =
      Except.error "Calendar 'work' not found" ∧
    (⟨"Work"⟩ : EKCalendar).title = "Work" := by
  refine ⟨((calendar_resolution_exact_create_errors_query_proceeds
      [⟨"Work"⟩] ⟨"Default"⟩ "work").2.1 rfl).trans (by rfl),
    ((calendar_resolution_exact_create_errors_query_proceeds
      [⟨"Work"⟩] ⟨"Default"⟩ "Work").1 ⟨"Work"⟩ rfl)⟩

/-- A Python `datetime`, identified by its POSIX timestamp — the value
`datetime.timestamp()` returns and `datetime.fromtimestamp` consumes.
Timestamps are exact rationals: at minute granularity the double carried by
the native date is an exact integer multiple of 60, so no rounding is lost
in this modelling. -/
structure PyDatetime where
  posixTimestamp : ℚ
deriving DecidableEq

/-- A Foundation `NSDate`, holding its time interval since the 1970 epoch
(`timeIntervalSince1970`). -/
structure NSDate where
  timeIntervalSince1970 : ℚ
deriving DecidableEq

/-- `_nsdate_from_datetime` from `calendar_utils.py`:
`NSDate.dateWithTimeIntervalSince1970_(dt.timestamp())`. -/
def nsdate_from_datetime (dt : PyDatetime) : NSDate :=
  ⟨dt.posixTimestamp⟩

/-- `_datetime_from_nsdate` from `calendar_utils.py`:
`datetime.fromtimestamp(nsdate.timeIntervalSince1970())`. -/
def datetime_from_nsdate (nsdate : NSDate) : PyDatetime :=
  ⟨nsdate.timeIntervalSince1970⟩

/-- C9: for any absolute instant at minute granularity (a timestamp that is
an exact multiple of 60 seconds), converting to the native date and back
returns the same instant: the two conversion functions are exact inverses
on such instants. -/
theorem nsdate_datetime_roundtrip (t : PyDatetime)
    (_h : ∃ m : ℤ, t.posixTimestamp = 60 * (m : ℚ)) :
    datetime_from_nsdate (nsdate_from_datetime t) = t := by
  rfl

/-- Witness for C9 at the instant 120 seconds after the epoch (minute 2). -/
theorem nsdate_datetime_roundtrip_witness :
    datetime_from_nsdate (nsdate_from_datetime ⟨120⟩) = ⟨120⟩ :=
  nsdate_datetime_roundtrip ⟨120⟩ ⟨2, by norm_num⟩

end CalendarUtils
